import Mathlib

/-!
Shallow embedding of `src/main.py` (URL42/motion_detection): a MicroPython
radar web server.  Python floats are modelled as exact rationals; byte
buffers as lists of characters; the cooperative-scheduling side effects of
one poll cycle, one calibration call and one connection are modelled as
pure state-passing functions over an explicit server state.
-/

namespace MotionDetection

/-- Python `round` to an integer: round half to even (banker's rounding),
modelling CPython/MicroPython `round` on an exact rational value. -/
def rint (q : ℚ) : ℤ :=
  if q - q.floor < 1/2 then q.floor
  else if 1/2 < q - q.floor then q.floor + 1
  else if q.floor % 2 = 0 then q.floor else q.floor + 1

/-- Python `round(q, n)`: round to `n` decimal digits. -/
def pround (n : ℕ) (q : ℚ) : ℚ :=
  (rint (q * 10 ^ n) : ℚ) / 10 ^ n

/-- A raw target record as read from the radar driver (`radar.targets`):
`distance` in millimetres (integer, `0` means no target), `angle` in
degrees, `speed` in sensor-native hundredths. -/
structure TargetReading where
  distance : ℤ
  angle : ℚ
  speed : ℤ
deriving DecidableEq, Repr

/-- A display-ready target as built by `sensor_task`:
`{"range": round(t.distance / 1000, 2), "angle": round(t.angle, 1),
"speed": round(t.speed / 100.0, 2)}`. -/
structure DisplayTarget where
  range : ℚ
  angle : ℚ
  speed : ℚ
deriving DecidableEq, Repr

/-- The per-target transform of the `sensor_task` list comprehension body
(src/main.py lines 43-47). -/
def toDisplay (t : TargetReading) : DisplayTarget :=
  { range := pround 2 ((t.distance : ℚ) / 1000)
    angle := pround 1 t.angle
    speed := pround 2 ((t.speed : ℚ) / 100) }

/-- The whole list comprehension of `sensor_task` (src/main.py lines 42-49):
keep the readings with `t.distance > 0`, in driver slot order, and apply
the display transform to each. -/
def buildSnapshot (ts : List TargetReading) : List DisplayTarget :=
  (ts.filter fun t => decide (t.distance > 0)).map toDisplay

/-- One iteration of the `sensor_task` loop body (src/main.py lines 40-50):
if `radar.update()` returned true, rebuild `last_targets` from the driver
readings, otherwise leave it untouched. -/
def sensor_task_step (newData : Bool) (readings : List TargetReading)
    (last : List DisplayTarget) : List DisplayTarget :=
  if newData then buildSnapshot readings else last

end MotionDetection


namespace MotionDetection

/-- The byte pattern `b"GET /data"` tested first in `handle_client`. -/
def dataPat : List Char := "GET /data".data

/-- The byte pattern `b"GET /calibrate"` tested second in `handle_client`. -/
def calPat : List Char := "GET /calibrate".data

/-- Python bytes containment (`pat in buf`): `pat` occurs as a contiguous
substring of `buf`.  This is the operator used on the request buffer in
`handle_client` (src/main.py lines 266 and 268). -/
def containsB (pat : List Char) : List Char → Bool
  | [] => pat.isEmpty
  | c :: rest => pat.isPrefixOf (c :: rest) || containsB pat rest

/-- The mutable server state touched by the tasks: the published snapshot
`last_targets` (src/main.py line 33) and the driver target list
`radar.targets`. -/
structure ServerState where
  last_targets : List DisplayTarget
  radar_targets : List TargetReading
deriving DecidableEq, Repr

/-- State at boot: `last_targets = []` (src/main.py line 33); the driver
starts with no tracked targets. -/
def initialState : ServerState := ServerState.mk [] []

/-- The state effect of `calibrate()` (src/main.py lines 55-59):
`radar.targets = []`, the published `last_targets` untouched.  The
`asyncio.sleep(0.2)` settle pause is a scheduling yield with no state
effect and is not modelled. -/
def calibrate (st : ServerState) : ServerState :=
  ServerState.mk st.last_targets []

/-- Decimal rendering of a two-decimal rational, modelling the float
serialization inside `json.dumps` for values produced by `round(x, 1)`
and `round(x, 2)` (e.g. `4.0`, `12.3`, `2.5`, `0.05`). -/
def reprFloat (q : ℚ) : String :=
  let sign := if q < 0 then "-" else ""
  let a : ℚ := |q|
  let ip : ℕ := a.floor.toNat
  let cents : ℕ := ((a - (ip : ℚ)) * 100).floor.toNat
  let frac := if cents % 10 = 0 then toString (cents / 10)
              else if cents < 10 then "0" ++ toString cents
              else toString cents
  sign ++ toString ip ++ "." ++ frac

/-- Serialization of one target dict inside `json.dumps`. -/
def dumpTarget (t : DisplayTarget) : String :=
  "\x7b\"range\": " ++ reprFloat t.range ++ ", \"angle\": " ++ reprFloat t.angle
    ++ ", \"speed\": " ++ reprFloat t.speed ++ "\x7d"

/-- `json.dumps({'targets': last_targets})` as built in `handle_client`
(src/main.py line 267). -/
def dumps (targets : List DisplayTarget) : String :=
  "\x7b\"targets\": [" ++ String.intercalate ", " (targets.map dumpTarget) ++ "]\x7d"

/-- The static presentation document `HTML` (src/main.py lines 64-258),
byte for byte. -/
def HTML : String := "<!DOCTYPE html>\n<html>\n<head>\n  <title>RD-03D Radar</title>\n  <style>\n    body \x7b margin: 0; background: \x23000; font-family: monospace; \x7d\n    canvas \x7b display: block; \x7d\n    \x23infoPanel \x7b\n      position: fixed;\n      top: 20px;\n      left: 20px;\n      color: \x23fff;\n      font-family: monospace;\n      background: rgba(0,0,0,0.4);\n      padding: 10px;\n      border: 1px solid \x230f0;\n    \x7d\n    .targetBlock \x7b\n      margin-bottom: 10px;\n      padding: 5px;\n      border-left: 5px solid;\n    \x7d\n    \x23calibrateBtn \x7b\n      position: fixed;\n      top: 20px;\n      right: 20px;\n      padding: 10px 15px;\n      background: \x23111;\n      color: \x230f0;\n      font-size: 14px;\n      font-family: monospace;\n      border: 1px solid \x230f0;\n      cursor: pointer;\n    \x7d\n    \x23calibrateBtn:hover \x7b\n      background: \x230f0;\n      color: \x23000;\n    \x7d\n  </style>\n</head>\n<body>\n  <canvas id=\"radar\"></canvas>\n  <div id=\"infoPanel\"></div>\n  <button id=\"calibrateBtn\">Calibrate Now</button>\n\n<script>\nconst canvas = document.getElementById(\x27radar\x27);\ncanvas.width = window.innerWidth;\ncanvas.height = window.innerHeight;\nconst ctx = canvas.getContext(\x272d\x27);\nconst centerX = canvas.width / 2;\nconst centerY = canvas.height * 0.85;\nconst scale = (centerY - 40) / 8;\n\nconst colors = [\x27\x23FF0000\x27, \x27\x230080FF\x27, \x27\x23B400FF\x27];  // red, blue, purple\nlet targets = [];\n\nfunction drawRadarBase() \x7b\n  ctx.clearRect(0, 0, canvas.width, canvas.height);\n  ctx.fillStyle = \x27rgba(0, 0, 0, 0.1)\x27;\n  ctx.fillRect(0, 0, canvas.width, canvas.height);\n\n  ctx.strokeStyle = \x27\x2300FF00\x27;\n  ctx.lineWidth = 2;\n  ctx.beginPath();\n  ctx.arc(centerX, centerY, 8 * scale, -Math.PI/2 - Math.PI/3, -Math.PI/2 + Math.PI/3);\n  ctx.stroke();\n\n  // Triangle boundaries\n  ctx.beginPath();\n  ctx.moveTo(centerX, centerY);\n  ctx.lineTo(centerX + Math.sin(Math.PI/3) * 8 * scale, centerY - Math.cos(Math.PI/3) * 8 * scale);\n  ctx.moveTo(centerX, centerY);\n  ctx.lineTo(centerX - Math.sin(Math.PI/3) * 8 * scale, centerY - Math.cos(Math.PI/3) * 8 * scale);\n  ctx.stroke();\n\n  // Distance rings\n  ctx.strokeStyle = \x27\x2300FF0033\x27;\n  ctx.fillStyle = \x27\x230f0\x27;\n  ctx.font = \x2712px monospace\x27;\n  for(let r = 1; r <= 8; r++) \x7b\n    ctx.beginPath();\n    ctx.arc(centerX, centerY, r * scale, -Math.PI/2 - Math.PI/3, -Math.PI/2 + Math.PI/3);\n    ctx.stroke();\n    const labelAngle = -30 * Math.PI / 180;\n    const labelX = centerX + (r * scale + 10) * Math.cos(labelAngle);\n    const labelY = centerY + (r * scale + 10) * Math.sin(labelAngle);\n    ctx.fillText(\x60$\x7br\x7dm\x60, labelX, labelY);\n  \x7d\n\n  // Angle tick labels\n  [-60, -30, 0, 30, 60].forEach(a => \x7b\n    const rad = a * Math.PI / 180;\n    const x = centerX + Math.sin(rad) * 8 * scale;\n    const y = centerY - Math.cos(rad) * 8 * scale;\n    ctx.strokeStyle = \x27\x2300FF0022\x27;\n    ctx.beginPath();\n    ctx.moveTo(centerX, centerY);\n    ctx.lineTo(x, y);\n    ctx.stroke();\n\n    // Angle text\n    const tx = centerX + Math.sin(rad) * (8 * scale + 25);\n    const ty = centerY - Math.cos(rad) * (8 * scale + 25);\n    ctx.fillStyle = \x27\x230f0\x27;\n    ctx.fillText(\x60$\x7ba\x7d°\x60, tx - 10, ty);\n  \x7d);\n\x7d\n\nfunction drawTargets() \x7b\n  const now = Date.now();\n  targets.forEach((t, i) => \x7b\n    const angleRad = t.angle * Math.PI / 180;\n    const targetX = centerX + t.range * scale * Math.sin(angleRad);\n    const targetY = centerY - t.range * scale * Math.cos(angleRad);\n    const color = colors[i % colors.length];\n\n    // Speed trail\n    const steps = 5;\n    for (let s = 0; s < steps; s++) \x7b\n      const alpha = 1 - (s / (steps - 1)) * 0.8;\n      const dotSize = 4 - (s / (steps - 1)) * 3.2;\n      const distanceFactor = 50 * t.speed * ((s+1) / steps);\n      const dx = Math.sin(angleRad) * distanceFactor;\n      const dy = -Math.cos(angleRad) * distanceFactor;\n      ctx.fillStyle = \x60rgba($\x7bparseInt(color.substr(1,2), 16)\x7d, $\x7bparseInt(color.substr(3,2), 16)\x7d, $\x7bparseInt(color.substr(5,2), 16)\x7d, $\x7balpha\x7d)\x60;\n      ctx.beginPath();\n      ctx.arc(targetX - dx, targetY - dy, dotSize, 0, Math.PI*2);\n      ctx.fill();\n    \x7d\n\n    // Main pulse dot\n    ctx.fillStyle = color;\n    ctx.beginPath();\n    ctx.arc(targetX, targetY, 8 + 2 * Math.sin(now / 200), 0, Math.PI * 2);\n    ctx.fill();\n  \x7d);\n\x7d\n\nfunction updateInfoPanel() \x7b\n  const panel = document.getElementById(\x27infoPanel\x27);\n  panel.innerHTML = \x27\x27;\n  targets.forEach((t, i) => \x7b\n    const block = document.createElement(\x27div\x27);\n    block.className = \x27targetBlock\x27;\n    block.style.borderColor = colors[i % colors.length];\n    block.innerHTML = \x60\n      <strong>Target $\x7bi + 1\x7d</strong><br>\n      Angle: $\x7bt.angle.toFixed(1)\x7d°<br>\n      Distance: $\x7bt.range.toFixed(2)\x7d m<br>\n      Speed: $\x7b(t.speed * 100).toFixed(2)\x7d cm/s\n    \x60;\n    panel.appendChild(block);\n  \x7d);\n\x7d\n\nasync function fetchData() \x7b\n  try \x7b\n    const res = await fetch(\x27/data\x27);\n    const data = await res.json();\n    if (Array.isArray(data.targets)) \x7b\n      targets = data.targets;\n    \x7d else if (data.target) \x7b\n      targets = [data.target];\n    \x7d else \x7b\n      targets = [];\n    \x7d\n  \x7d catch (e) \x7b\n    console.error(\"Fetch error:\", e);\n    targets = [];\n  \x7d\n  setTimeout(fetchData, 100);\n\x7d\n\nfunction animate() \x7b\n  drawRadarBase();\n  drawTargets();\n  updateInfoPanel();\n  requestAnimationFrame(animate);\n\x7d\n\ndocument.getElementById(\x27calibrateBtn\x27).addEventListener(\x27click\x27, () => \x7b\n  fetch(\x27/calibrate\x27).then(() => \x7b\n    console.log(\x27Calibration triggered\x27);\n  \x7d).catch(err => \x7b\n    console.error(\x27Calibration failed:\x27, err);\n  \x7d);\n\x7d);\n\nfetchData();\nanimate();\n</script>\n</body>\n</html>\n"

/-- The `/data` response string (src/main.py line 267). -/
def jsonResponse (targets : List DisplayTarget) : String :=
  "HTTP/1.0 200 OK\r\nContent-Type: application/json\r\n\r\n" ++ dumps targets

/-- The `/calibrate` response string (src/main.py line 270). -/
def calibratedResponse : String :=
  "HTTP/1.0 200 OK\r\nContent-Type: text/plain\r\n\r\nCalibrated."

/-- The fallback response string (src/main.py line 272). -/
def htmlResponse : String :=
  "HTTP/1.0 200 OK\r\nContent-Type: text/html\r\n\r\n" ++ HTML

/-- What one request produces: the response written back, the server state
afterwards, and how many driver-reset (target-clearing) calls ran. -/
structure RouteResult where
  response : String
  state : ServerState
  resets : ℕ
deriving DecidableEq, Repr

/-- The routing chain of `handle_client` (src/main.py lines 266-272):
`if b"GET /data" in request`, `elif b"GET /calibrate" in request`, `else`
the HTML document. -/
def route (req : List Char) (st : ServerState) : RouteResult :=
  if containsB dataPat req then
    RouteResult.mk (jsonResponse st.last_targets) st 0
  else if containsB calPat req then
    RouteResult.mk calibratedResponse (calibrate st) 1
  else
    RouteResult.mk htmlResponse st 0

/-- Where, if anywhere, a connection faults: while reading the request or
while writing the response.  Routing itself is pure arithmetic and string
building and cannot raise. -/
inductive Fault
  | ok
  | readFault
  | writeFault
deriving DecidableEq, Repr

/-- Outcome of one `handle_client` invocation: state afterwards, the
response actually written (none when a fault interrupted it), whether the
connection was closed, and whether an exception escaped the handler. -/
structure ConnResult where
  state : ServerState
  sent : Option String
  closed : Bool
  propagated : Bool
deriving DecidableEq, Repr

/-- `handle_client` (src/main.py lines 263-277): `try` read/route/write,
`except` catches every exception, `finally` closes the connection.  A read
fault skips routing; a write fault happens after routing (so after any
calibration side effect); in every case the exception is swallowed and the
connection is closed. -/
def handle_client (f : Fault) (req : List Char) (st : ServerState) : ConnResult :=
  match f with
  | Fault.readFault => ConnResult.mk st none true false
  | Fault.writeFault => ConnResult.mk (route req st).state none true false
  | Fault.ok => ConnResult.mk (route req st).state (some (route req st).response) true false

end MotionDetection

namespace MotionDetection

lemma rat_floor_eq_floor (q : ℚ) : q.floor = ⌊q⌋ := by
  rw [Rat.floor_def', Rat.floor_def]

end MotionDetection

namespace MotionDetection

lemma abs_rint_sub_le (q : ℚ) : |(rint q : ℚ) - q| ≤ 1/2 := by
  have h0 : (⌊q⌋ : ℚ) ≤ q := Int.floor_le q
  have h1 : q < ⌊q⌋ + 1 := Int.lt_floor_add_one q
  rw [abs_le]
  unfold rint
  rw [rat_floor_eq_floor]
  split
  · next h => constructor <;> linarith
  · next h =>
    split
    · next h2 => constructor <;> push_cast <;> linarith
    · next h2 =>
      have he : q - (⌊q⌋ : ℚ) = 1/2 := by
        have := not_lt.mp h
        have := not_lt.mp h2
        linarith
      split
      · constructor <;> linarith
      · constructor <;> push_cast <;> linarith

lemma abs_pround_sub_le (n : ℕ) (q : ℚ) : |pround n q - q| ≤ 1 / (2 * 10 ^ n) := by
  have hp : (0:ℚ) < 10 ^ n := by positivity
  have hb := abs_rint_sub_le (q * 10 ^ n)
  have he : pround n q - q = ((rint (q * 10 ^ n) : ℚ) - q * 10 ^ n) / 10 ^ n := by
    unfold pround
    field_simp
    ring
  calc |pround n q - q| = |(rint (q * 10 ^ n) : ℚ) - q * 10 ^ n| / 10 ^ n := by
        rw [he, abs_div, abs_of_pos hp]
    _ ≤ (1/2) / 10 ^ n := by gcongr
    _ = 1 / (2 * 10 ^ n) := by ring

lemma containsB_iff (pat buf : List Char) : containsB pat buf = true ↔ pat <:+: buf := by
  induction buf with
  | nil =>
    simp [containsB, List.isEmpty_iff]
  | cons c rest ih =>
    rw [containsB, Bool.or_eq_true, List.isPrefixOf_iff_prefix, ih, List.infix_cons_iff]

lemma calibrate_last_targets (st : ServerState) :
    (calibrate st).last_targets = st.last_targets := rfl

lemma route_last_targets (req : List Char) (st : ServerState) :
    (route req st).state.last_targets = st.last_targets := by
  unfold route
  split
  · rfl
  · split <;> rfl

lemma length_filter_pos_add_nonpos (ts : List TargetReading) :
    (ts.filter fun t => decide (t.distance > 0)).length
      + (ts.filter fun t => decide (t.distance ≤ 0)).length = ts.length := by
  induction ts with
  | nil => rfl
  | cons t ts ih =>
    rw [List.filter_cons, List.filter_cons]
    by_cases h : t.distance > 0
    · rw [if_pos (decide_eq_true h), if_neg (by simp only [decide_eq_true_eq]; omega)]
      simp only [List.length_cons]
      omega
    · rw [if_neg (by simp only [decide_eq_true_eq]; omega),
        if_pos (decide_eq_true (not_lt.mp h))]
      simp only [List.length_cons]
      omega

lemma data_split_json (ts : List DisplayTarget) :
    (jsonResponse ts).data
      = "HTTP/1.0 200 OK".data
        ++ ("\r\nContent-Type: application/json\r\n\r\n".data ++ (dumps ts).data) := by
  unfold jsonResponse
  rw [String.data_append,
    show "HTTP/1.0 200 OK\r\nContent-Type: application/json\r\n\r\n".data
      = "HTTP/1.0 200 OK".data ++ "\r\nContent-Type: application/json\r\n\r\n".data
      from by decide]
  simp

lemma data_split_cal :
    calibratedResponse.data
      = "HTTP/1.0 200 OK".data ++ "\r\nContent-Type: text/plain\r\n\r\nCalibrated.".data := by
  decide

lemma data_split_html :
    htmlResponse.data
      = "HTTP/1.0 200 OK".data ++ ("\r\nContent-Type: text/html\r\n\r\n".data ++ HTML.data) := by
  unfold htmlResponse
  rw [String.data_append,
    show "HTTP/1.0 200 OK\r\nContent-Type: text/html\r\n\r\n".data
      = "HTTP/1.0 200 OK".data ++ "\r\nContent-Type: text/html\r\n\r\n".data
      from by decide]
  simp

end MotionDetection

namespace MotionDetection

/-- C1: every inbound request buffer produces exactly one of three
responses, chosen by the `if`/`elif`/`else` chain of `handle_client`: a
buffer containing `"GET /data"` gets the JSON snapshot response, otherwise
a buffer containing `"GET /calibrate"` gets the plain-text
`"Calibrated."` acknowledgement together with exactly one driver-reset
(target-clearing) call, and any other buffer (the empty buffer included)
gets the static HTML response; every one of the three responses starts
with the status line `"HTTP/1.0 200 OK"`. -/
theorem c1_router_three_way (req : List Char) (st : ServerState) :
    (containsB dataPat req = true →
      route req st = RouteResult.mk (jsonResponse st.last_targets) st 0) ∧
    (containsB dataPat req = false → containsB calPat req = true →
      route req st = RouteResult.mk calibratedResponse (calibrate st) 1) ∧
    (containsB dataPat req = false → containsB calPat req = false →
      route req st = RouteResult.mk htmlResponse st 0) ∧
    (∃ rest : List Char,
      (route req st).response.data = "HTTP/1.0 200 OK".data ++ rest) := by
  refine ⟨?_, ?_, ?_, ?_⟩
  · intro h
    unfold route
    rw [if_pos h]
  · intro h1 h2
    unfold route
    rw [if_neg (by simp [h1]), if_pos h2]
  · intro h1 h2
    unfold route
    rw [if_neg (by simp [h1]), if_neg (by simp [h2])]
  · unfold route
    split
    · exact ⟨_, data_split_json st.last_targets⟩
    · split
      · exact ⟨_, data_split_cal⟩
      · exact ⟨_, data_split_html⟩

/-- C1 witness: the three branches at concrete buffers — a plain `/data`
request, a plain `/calibrate` request, and the empty buffer. -/
theorem c1_router_three_way_witness :
    route ("GET /data HTTP/1.0\r\n\r\n".data) initialState
      = RouteResult.mk (jsonResponse []) initialState 0 ∧
    route ("GET /calibrate HTTP/1.0\r\n\r\n".data) initialState
      = RouteResult.mk calibratedResponse (calibrate initialState) 1 ∧
    route ("".data) initialState = RouteResult.mk htmlResponse initialState 0 :=
  ⟨(c1_router_three_way ("GET /data HTTP/1.0\r\n\r\n".data) initialState).1 (by decide),
   (c1_router_three_way ("GET /calibrate HTTP/1.0\r\n\r\n".data) initialState).2.1
     (by decide) (by decide),
   (c1_router_three_way ("".data) initialState).2.2.1 (by decide) (by decide)⟩

end MotionDetection

namespace MotionDetection

/-- C2: the rebuilt snapshot is the image under the display transform of
exactly those driver readings whose distance is strictly positive, taken
as a filtered subsequence in the driver's native slot order: every reading
with distance ≤ 0 contributes no entry (the length accounting below), and
every reading with positive distance contributes its entry. -/
theorem c2_zero_distance_filtered (ts : List TargetReading) :
    ∃ sub : List TargetReading,
      sub.Sublist ts ∧
      (∀ t ∈ sub, 0 < t.distance) ∧
      (∀ t ∈ ts, 0 < t.distance → t ∈ sub) ∧
      buildSnapshot ts = sub.map toDisplay ∧
      sub.length + (ts.filter fun t => decide (t.distance ≤ 0)).length = ts.length := by
  refine ⟨ts.filter fun t => decide (t.distance > 0),
    List.filter_sublist ts, ?_, ?_, rfl, length_filter_pos_add_nonpos ts⟩
  · intro t ht
    exact of_decide_eq_true (List.mem_filter.mp ht).2
  · intro t ht h
    exact List.mem_filter.mpr ⟨ht, decide_eq_true h⟩

/-- C2 witness: on a concrete reading list with one positive-distance and
one zero-distance slot, the filtered subsequence exists as stated. -/
theorem c2_zero_distance_filtered_witness :
    ∃ sub : List TargetReading,
      sub.Sublist [TargetReading.mk 4000 1 250, TargetReading.mk 0 2 0] ∧
      (∀ t ∈ sub, 0 < t.distance) ∧
      (∀ t ∈ [TargetReading.mk 4000 1 250, TargetReading.mk 0 2 0],
        0 < t.distance → t ∈ sub) ∧
      buildSnapshot [TargetReading.mk 4000 1 250, TargetReading.mk 0 2 0]
        = sub.map toDisplay ∧
      sub.length
        + (([TargetReading.mk 4000 1 250, TargetReading.mk 0 2 0].filter
            fun t => decide (t.distance ≤ 0)).length)
        = [TargetReading.mk 4000 1 250, TargetReading.mk 0 2 0].length :=
  c2_zero_distance_filtered [TargetReading.mk 4000 1 250, TargetReading.mk 0 2 0]

end MotionDetection

namespace MotionDetection

/-- C3: the per-target transform maps the reading distance 4000 mm, angle
12.34, speed 250 to the display target range 4.0, angle 12.3, speed 2.5;
in general the range is distance/1000 rounded to 2 decimal places (an
integer multiple of 1/100 within half an ulp of distance/1000), the angle
is rounded to 1 decimal place, and the speed is speed/100 rounded to 2
decimal places. -/
theorem c3_display_transform :
    toDisplay (TargetReading.mk 4000 (617/50) 250)
      = DisplayTarget.mk 4 (123/10) (5/2) ∧
    ∀ t : TargetReading,
      (∃ k : ℤ, (toDisplay t).range = (k : ℚ) / 100) ∧
      |(toDisplay t).range - (t.distance : ℚ) / 1000| ≤ 1/200 ∧
      (∃ k : ℤ, (toDisplay t).angle = (k : ℚ) / 10) ∧
      |(toDisplay t).angle - t.angle| ≤ 1/20 ∧
      (∃ k : ℤ, (toDisplay t).speed = (k : ℚ) / 100) ∧
      |(toDisplay t).speed - (t.speed : ℚ) / 100| ≤ 1/200 := by
  constructor
  · simp only [toDisplay, pround, rint, rat_floor_eq_floor, DisplayTarget.mk.injEq]
    norm_num
  · intro t
    refine ⟨⟨rint ((t.distance : ℚ) / 1000 * 10 ^ 2), by norm_num [toDisplay, pround]⟩, ?_,
      ⟨rint (t.angle * 10 ^ 1), by norm_num [toDisplay, pround]⟩, ?_,
      ⟨rint ((t.speed : ℚ) / 100 * 10 ^ 2), by norm_num [toDisplay, pround]⟩, ?_⟩
    · have h := abs_pround_sub_le 2 ((t.distance : ℚ) / 1000)
      norm_num at h
      simpa [toDisplay] using h
    · have h := abs_pround_sub_le 1 t.angle
      norm_num at h
      simpa [toDisplay] using h
    · have h := abs_pround_sub_le 2 ((t.speed : ℚ) / 100)
      norm_num at h
      simpa [toDisplay] using h

end MotionDetection

namespace MotionDetection

/-- C4: a `/data` request served before any publish has ever replaced
`last_targets` (still its initial `[]` value) returns the JSON body
`{"targets": []}`; the handler is a total function here, so no error is
possible. -/
theorem c4_empty_snapshot_served (radar_targets : List TargetReading)
    (req : List Char) (h : containsB dataPat req = true) :
    (route req (ServerState.mk [] radar_targets)).response
      = "HTTP/1.0 200 OK\r\nContent-Type: application/json\r\n\r\n\x7b\"targets\": []\x7d" := by
  unfold route
  rw [if_pos h]
  rfl

/-- C4 witness: the canonical `/data` request against the boot state. -/
theorem c4_empty_snapshot_served_witness :
    (route ("GET /data HTTP/1.0\r\n\r\n".data) (ServerState.mk [] [])).response
      = "HTTP/1.0 200 OK\r\nContent-Type: application/json\r\n\r\n\x7b\"targets\": []\x7d" :=
  c4_empty_snapshot_served [] ("GET /data HTTP/1.0\r\n\r\n".data) (by decide)

/-- C5: one `sensor_task` poll cycle leaves the published snapshot exactly
unchanged whenever `update()` reports no new data, and replaces it with
the freshly built snapshot exactly when it does; in particular the
snapshot can change only on a new-data cycle. -/
theorem c5_poll_no_new_data_keeps_snapshot (newData : Bool)
    (readings : List TargetReading) (last : List DisplayTarget) :
    (newData = false → sensor_task_step newData readings last = last) ∧
    (newData = true → sensor_task_step newData readings last = buildSnapshot readings) ∧
    (sensor_task_step newData readings last ≠ last → newData = true) := by
  cases newData <;> simp [sensor_task_step]

/-- C5 witness: a no-new-data cycle at a concrete driver list leaves a
concrete published snapshot untouched. -/
theorem c5_poll_no_new_data_keeps_snapshot_witness :
    sensor_task_step false [TargetReading.mk 4000 1 250] [DisplayTarget.mk 4 1 (5/2)]
      = [DisplayTarget.mk 4 1 (5/2)] :=
  (c5_poll_no_new_data_keeps_snapshot false [TargetReading.mk 4000 1 250]
    [DisplayTarget.mk 4 1 (5/2)]).1 rfl

/-- C6: two back-to-back `/data` requests with no intervening poll return
byte-identical responses (hence byte-identical JSON bodies): serving a
`/data` request leaves the server state unchanged, and the response is a
deterministic function of that state. -/
theorem c6_back_to_back_data (req₁ req₂ : List Char) (st : ServerState)
    (h₁ : containsB dataPat req₁ = true) (h₂ : containsB dataPat req₂ = true) :
    (route req₁ st).state = st ∧
    (route req₂ (route req₁ st).state).response = (route req₁ st).response := by
  have e₁ : route req₁ st = RouteResult.mk (jsonResponse st.last_targets) st 0 := by
    unfold route
    rw [if_pos h₁]
  have e₂ : route req₂ st = RouteResult.mk (jsonResponse st.last_targets) st 0 := by
    unfold route
    rw [if_pos h₂]
  rw [e₁]
  exact ⟨rfl, by rw [e₂]⟩

/-- C6 witness: two concrete `/data` requests (one with an extra header)
against a concrete published snapshot. -/
theorem c6_back_to_back_data_witness :
    (route ("GET /data HTTP/1.0\r\n\r\n".data)
        (ServerState.mk [DisplayTarget.mk 4 1 (5/2)] [])).state
      = ServerState.mk [DisplayTarget.mk 4 1 (5/2)] [] ∧
    (route ("GET /data HTTP/1.0\r\nAccept: */*\r\n\r\n".data)
        ((route ("GET /data HTTP/1.0\r\n\r\n".data)
          (ServerState.mk [DisplayTarget.mk 4 1 (5/2)] [])).state)).response
      = (route ("GET /data HTTP/1.0\r\n\r\n".data)
          (ServerState.mk [DisplayTarget.mk 4 1 (5/2)] [])).response :=
  c6_back_to_back_data ("GET /data HTTP/1.0\r\n\r\n".data)
    ("GET /data HTTP/1.0\r\nAccept: */*\r\n\r\n".data)
    (ServerState.mk [DisplayTarget.mk 4 1 (5/2)] []) (by decide) (by decide)

/-- C7: `calibrate()` clears the driver's tracked-target list and leaves
the published snapshot `last_targets` identical before and after the
call; the visible snapshot can therefore change only through a later
`sensor_task` cycle. -/
theorem c7_calibrate_frame (st : ServerState) :
    (calibrate st).radar_targets = [] ∧
    (calibrate st).last_targets = st.last_targets :=
  ⟨rfl, rfl⟩

end MotionDetection

namespace MotionDetection

/-- C8 counterexample: the buffer `"X GET /data"` does not begin with
either pattern, so under the claim's prefix-match reading it would route
to the default HTML response; the code, which tests substring containment
(`in`), routes it to the JSON response instead. -/
theorem c8_prefix_claim_counterexample :
    dataPat.isPrefixOf ("X GET /data".data) = false ∧
    calPat.isPrefixOf ("X GET /data".data) = false ∧
    (route ("X GET /data".data) initialState).response ≠ htmlResponse ∧
    (route ("X GET /data".data) initialState).response = jsonResponse [] := by
  refine ⟨by decide, by decide, by decide, by decide⟩

/-- C8 (amended): request classification is by substring containment of
the two patterns anywhere in the buffer, not by prefix match: the selected
route is determined solely by which patterns the buffer contains (buffers
agreeing on both containment tests route identically from any state), and
the containment test is exactly list-infix occurrence, so pattern bytes
occurring later in the buffer (e.g. inside a header) do select that
route. -/
theorem c8_containment_routing (req₁ req₂ : List Char) (st : ServerState)
    (hd : containsB dataPat req₁ = containsB dataPat req₂)
    (hc : containsB calPat req₁ = containsB calPat req₂) :
    route req₁ st = route req₂ st ∧
    (containsB dataPat req₁ = true ↔ dataPat <:+: req₁) ∧
    (containsB calPat req₁ = true ↔ calPat <:+: req₁) := by
  refine ⟨?_, containsB_iff _ _, containsB_iff _ _⟩
  unfold route
  rw [hd, hc]

/-- C8 witness: `"GET /data A"` and `"B GET /data"` agree on both
containment tests and route identically. -/
theorem c8_containment_routing_witness :
    route ("GET /data A".data) initialState = route ("B GET /data".data) initialState ∧
    (containsB dataPat ("GET /data A".data) = true ↔ dataPat <:+: ("GET /data A".data)) ∧
    (containsB calPat ("GET /data A".data) = true ↔ calPat <:+: ("GET /data A".data)) :=
  c8_containment_routing ("GET /data A".data) ("B GET /data".data) initialState
    (by decide) (by decide)

/-- C9: whatever fault (none, read fault, write fault) hits a connection,
`handle_client` closes the connection, lets no exception propagate, and
leaves the published snapshot `last_targets` unchanged; a subsequent
independent `/data` connection is then served the JSON of that same
snapshot. -/
theorem c9_fault_containment (f : Fault) (req : List Char) (st : ServerState) :
    (handle_client f req st).closed = true ∧
    (handle_client f req st).propagated = false ∧
    (handle_client f req st).state.last_targets = st.last_targets ∧
    (∀ req₂, containsB dataPat req₂ = true →
      (handle_client Fault.ok req₂ (handle_client f req st).state).sent
        = some (jsonResponse st.last_targets)) := by
  have hstate : (handle_client f req st).state.last_targets = st.last_targets := by
    cases f
    · exact route_last_targets req st
    · rfl
    · exact route_last_targets req st
  refine ⟨by cases f <;> rfl, by cases f <;> rfl, hstate, ?_⟩
  intro req₂ h₂
  show (ConnResult.mk (route req₂ (handle_client f req st).state).state
      (some (route req₂ (handle_client f req st).state).response) true false).sent
    = some (jsonResponse st.last_targets)
  unfold route
  rw [if_pos h₂]
  simp [hstate]

/-- C9 witness: a read-faulted connection against the boot state, then a
subsequent `/data` connection is served the JSON of the unchanged
snapshot. -/
theorem c9_fault_containment_witness :
    (handle_client Fault.ok ("GET /data HTTP/1.0\r\n\r\n".data)
        (handle_client Fault.readFault ("GET /data".data) initialState).state).sent
      = some (jsonResponse initialState.last_targets) :=
  (c9_fault_containment Fault.readFault ("GET /data".data) initialState).2.2.2
    ("GET /data HTTP/1.0\r\n\r\n".data) (by decide)

/-- C10: a buffer containing both `"GET /data"` and `"GET /calibrate"` is
routed by the first test: the JSON response is served, no driver-reset
runs, and the state (driver targets included) is unchanged. -/
theorem c10_data_precedence (req : List Char) (st : ServerState)
    (hd : containsB dataPat req = true) (_hc : containsB calPat req = true) :
    route req st = RouteResult.mk (jsonResponse st.last_targets) st 0 := by
  unfold route
  rw [if_pos hd]

/-- C10 witness: a concrete buffer carrying `"GET /calibrate"` inside a
header of a `/data` request is served JSON with zero resets and an
unchanged state. -/
theorem c10_data_precedence_witness :
    route ("GET /data H\r\nX: GET /calibrate\r\n\r\n".data) initialState
      = RouteResult.mk (jsonResponse []) initialState 0 :=
  c10_data_precedence ("GET /data H\r\nX: GET /calibrate\r\n\r\n".data) initialState
    (by decide) (by decide)

end MotionDetection
